import Mathlib

/-!
Shallow embedding of the browser-side export, status and filter logic of the
Kittytable timetable application: `timetable/static/timetable/js/app.js`
(src/unnamed/part_000) and
`src/college_timetable/timetable/static/timetable/js/teachers.js`.

The two external collaborators are modelled as oracles: rasterization
(html2canvas) is an `Except Unit Canvas` outcome attached to each capture
region, and the document library (jsPDF) is a list of pages that starts with
one blank page — the code relies on that initial page via its
`if (!first) pdf.addPage()` logic.  JS strings are modelled as Lean strings,
with the character-level operations (lowercasing, trimming, whitespace tests)
re-implemented structurally over `List Char` so that they evaluate in the
kernel; the whitespace and case tables are the ASCII core of the JS ones.
-/

/-- Lowercasing of a string, character by character: model of
`String.prototype.toLowerCase` (ASCII case table). -/
def jsToLower (l : List Char) : List Char := l.map Char.toLower

/-- Uppercasing of a string, character by character: model of
`String.prototype.toUpperCase` (ASCII case table). -/
def jsToUpper (l : List Char) : List Char := l.map Char.toUpper

/-- Removal of leading and trailing whitespace: model of
`String.prototype.trim`. -/
def jsTrim (l : List Char) : List Char :=
  ((l.dropWhile Char.isWhitespace).reverse.dropWhile Char.isWhitespace).reverse

/-- Substring test: `containsSub hay needle = true` iff `needle` occurs
contiguously inside `hay`; model of `String.prototype.includes`. -/
def containsSub (hay needle : List Char) : Bool :=
  match hay with
  | [] => needle.isPrefixOf ([] : List Char)
  | c :: cs => needle.isPrefixOf (c :: cs) || containsSub cs needle

/-- Collapse of each maximal run of whitespace into a single underscore:
model of `filenameBase.replace(/\s+/g, "_")`.  The boolean argument records
whether the previous character was part of a whitespace run. -/
def squashWs : List Char → Bool → List Char
  | [], _ => []
  | c :: cs, inRun =>
    if c.isWhitespace then
      if inRun then squashWs cs true else '_' :: squashWs cs true
    else
      c :: squashWs cs false

/-- Filename sanitizer `const safeName = filenameBase.replace(/\s+/g, "_")`
(app.js line 93, teachers.js line 59). -/
def safeNameOf (stem : String) : String := String.mk (squashWs stem.data false)

/-- Derived download filename: sanitized stem plus a dot and the extension. -/
def derivedFilename (stem ext : String) : String := safeNameOf stem ++ "." ++ ext

/-- Raster image returned by the rendering capability: its pixel width and
height (JS numbers are modelled as rationals). -/
structure Canvas where
  width : ℚ
  height : ℚ
deriving DecidableEq

/-- Placement of a snapshot on a document page, as computed by the export
routines. -/
structure Placement where
  ratio : ℚ
  imgWidth : ℚ
  imgHeight : ℚ
  x : ℚ
  y : ℚ
deriving DecidableEq

/-- Page-fit placement computed identically in app.js lines 112-119 /
177-184 and teachers.js lines 78-85 / 146-153:
ratio is the smaller of the two axis ratios, the image is scaled by it and
centered on both axes. -/
def computePlacement (pageWidth pageHeight cw ch : ℚ) : Placement :=
  let r := min (pageWidth / cw) (pageHeight / ch)
  { ratio := r
    imgWidth := cw * r
    imgHeight := ch * r
    x := (pageWidth - cw * r) / 2
    y := (pageHeight - ch * r) / 2 }

/-- Landscape A4 page width in points, as reported by the document library
for `new jsPDF("l", "pt", "a4")`. -/
def a4LandscapeWidth : ℚ := 84189 / 100

/-- Landscape A4 page height in points, as reported by the document library
for `new jsPDF("l", "pt", "a4")`. -/
def a4LandscapeHeight : ℚ := 59528 / 100

/-- Observable outcome of one call to a status helper: the message put on the
status element (if any), the console log entries made, and whether the call
threw. -/
structure StatusResult where
  displayed : Option String
  logged : List (String × String)
  threw : Bool
deriving DecidableEq

/-- Status helper `showStatus` of app.js (lines 16-35): with no status
element present, the kind (uppercased) and the message are logged to the
console and the call returns. -/
def showStatusApp (surfacePresent : Bool) (message kind : String) : StatusResult :=
  if surfacePresent then
    { displayed := some message, logged := [], threw := false }
  else
    { displayed := none,
      logged := [(String.mk (jsToUpper kind.data), message)], threw := false }

/-- Status helper `showStatus` of teachers.js (lines 11-27): with no status
element present, the call returns immediately and logs nothing. -/
def showStatusTeachers (surfacePresent : Bool) (message _kind : String) : StatusResult :=
  if surfacePresent then
    { displayed := some message, logged := [], threw := false }
  else
    { displayed := none, logged := [], threw := false }

/-- One page of the in-progress document: the embedded image with its
placement, and the caption drawn on top of it, when present. -/
structure Page where
  image : Option (Canvas × Placement)
  caption : Option String
deriving DecidableEq

/-- Fresh page with nothing drawn on it yet. -/
def blankPage : Page := { image := none, caption := none }

/-- In-progress document of the document library.  A newly constructed
document already contains one blank page, which is why the batch loops only
append a page from the second emitted card on (`if (!first) pdf.addPage()`). -/
structure PdfDoc where
  pages : List Page
deriving DecidableEq

/-- Model of `new jsPDF("l", "pt", "a4")`: a document with one blank page. -/
def newPdf : PdfDoc := { pages := [blankPage] }

/-- Model of `pdf.addPage()`: appends a blank page, which becomes current. -/
def addPage (doc : PdfDoc) : PdfDoc := { pages := doc.pages ++ [blankPage] }

/-- Update of the current (last) page of the document. -/
def updateLast (f : Page → Page) : List Page → List Page
  | [] => []
  | [p] => [f p]
  | p :: q :: ps => p :: updateLast f (q :: ps)

/-- Model of `pdf.addImage(imgData, "PNG", x, y, imgWidth, imgHeight)`: the
image and its placement are drawn on the current page. -/
def drawImage (doc : PdfDoc) (cv : Canvas) (pl : Placement) : PdfDoc :=
  { pages := updateLast (fun pg => { pg with image := some (cv, pl) }) doc.pages }

/-- Model of `pdf.text(String(name), 30, 30)`: the caption is drawn on the
current page (text color and font size are fixed constants, not modelled). -/
def drawText (doc : PdfDoc) (caption : String) : PdfDoc :=
  { pages := updateLast (fun pg => { pg with caption := some caption }) doc.pages }

instance : DecidableEq (Except Unit Canvas)
  | Except.error (), Except.error () => isTrue rfl
  | Except.ok a, Except.ok b =>
    if h : a = b then isTrue (by rw [h]) else isFalse (by simp [h])
  | Except.error _, Except.ok _ => isFalse (by simp)
  | Except.ok _, Except.error _ => isFalse (by simp)

/-- One card of the dashboard or teachers list: its display-name attribute
(when present) and its capture region.  A present region carries the outcome
that rasterizing it produces; `Except.error` models a thrown rendering
error, `none` models a card whose capture sub-element is missing. -/
structure Card where
  name : Option String
  wrapper : Option (Except Unit Canvas)
deriving DecidableEq

/-- Rasterizing this card's capture region (when it has one) succeeds. -/
def renderOk (c : Card) : Bool :=
  match c.wrapper with
  | some (Except.error _) => false
  | _ => true

/-- The card's capture region resolves to an element. -/
def hasRegion (c : Card) : Bool := c.wrapper.isSome

/-- Sequential page-building loop shared by app.js `exportAllClassesPdf`
(lines 166-193) and the teachers.js `btnAll` click handler (lines 135-162):
cards without a resolvable region are skipped, a thrown rasterization aborts
the loop, and each emitted card is drawn on a fresh page — the initial page
for the first emitted card, an appended page for every later one. -/
def batchLoop (pw ph : ℚ) (fallback : String) :
    List Card → PdfDoc → Bool → Except Unit PdfDoc
  | [], doc, _ => Except.ok doc
  | c :: rest, doc, first =>
    match c.wrapper with
    | none => batchLoop pw ph fallback rest doc first
    | some (Except.error e) => Except.error e
    | some (Except.ok cv) =>
      let pl := computePlacement pw ph cv.width cv.height
      let doc1 := if first then doc else addPage doc
      let doc2 := drawText (drawImage doc1 cv pl) (c.name.getD fallback)
      batchLoop pw ph fallback rest doc2 false

/-- Pages the batch loop emits: one per card whose capture region resolves
and rasterizes, in input order, each captioned with the card's display name
or the fallback name. -/
def expectedPages (pw ph : ℚ) (fallback : String) (cards : List Card) : List Page :=
  cards.filterMap fun c =>
    match c.wrapper with
    | some (Except.ok cv) =>
      some { image := some (cv, computePlacement pw ph cv.width cv.height),
             caption := some (c.name.getD fallback) }
    | _ => none

/-- Observable outcome of a batch export call: the status toasts shown in
order, the saved document and its filename (when the save call was reached),
and whether an exception escaped the call. -/
structure BatchOutcome where
  statuses : List (String × String)
  saved : Option PdfDoc
  savedName : Option String
  threw : Bool
deriving DecidableEq

/-- Batch export `exportAllClassesPdf` of app.js (lines 147-197): library
check, empty-collection check, preparation toast, the page loop, then save.
The loop body is not inside any try/catch, so a rasterization error escapes
the call and nothing is saved. -/
def exportAllClassesPdf (libsLoaded : Bool) (cards : List Card) : BatchOutcome :=
  if !libsLoaded then
    { statuses := [("Export libraries not loaded.", "error")],
      saved := none, savedName := none, threw := false }
  else if cards.isEmpty then
    { statuses := [("No class timetables to export.", "error")],
      saved := none, savedName := none, threw := false }
  else
    match batchLoop a4LandscapeWidth a4LandscapeHeight "class" cards newPdf true with
    | Except.error _ =>
      { statuses := [("Preparing all class timetables as PDF…", "success")],
        saved := none, savedName := none, threw := true }
    | Except.ok doc =>
      { statuses := [("Preparing all class timetables as PDF…", "success"),
                     ("Downloaded timetable-all-classes.pdf", "success")],
        saved := some doc, savedName := some "timetable-all-classes.pdf",
        threw := false }

/-- Body of the teachers.js `btnAll` click handler (lines 120-166); it runs
only when the listener was registered, i.e. when both libraries were present
at startup, so it performs no library check of its own. -/
def btnAllTeachersHandler (cards : List Card) : BatchOutcome :=
  if cards.isEmpty then
    { statuses := [("No teachers to export.", "error")],
      saved := none, savedName := none, threw := false }
  else
    match batchLoop a4LandscapeWidth a4LandscapeHeight "teacher" cards newPdf true with
    | Except.error _ =>
      { statuses := [("Preparing all teacher timetables as PDF…", "success")],
        saved := none, savedName := none, threw := true }
    | Except.ok doc =>
      { statuses := [("Preparing all teacher timetables as PDF…", "success"),
                     ("Downloaded timetable-all-teachers.pdf", "success")],
        saved := some doc, savedName := some "timetable-all-teachers.pdf",
        threw := false }

/-- Effect of clicking the teachers.js batch button: the listener is
registered only under `btnAll && hasHtml2Canvas && hasJsPdf` (line 119), so
with a library missing the click runs no handler at all. -/
def btnAllTeachersClick (libsLoaded : Bool) (cards : List Card) : BatchOutcome :=
  if libsLoaded then btnAllTeachersHandler cards
  else { statuses := [], saved := none, savedName := none, threw := false }

/-- Observable outcome of a single-card export call: status toasts, files
downloaded, number of rasterization calls started, the assembled one-page
document (pdf format only), and whether an exception escaped the call. -/
structure ExportOutcome where
  statuses : List (String × String)
  downloads : List String
  renderCalls : Nat
  saved : Option PdfDoc
  threw : Bool
deriving DecidableEq

/-- Single-card export helper `exportElementAs` of app.js (lines 70-129).
The whole capture / assembly region is wrapped in try/catch, so no exception
escapes; a format other than png or pdf falls through both branches after
rasterizing, producing no download and no toast. -/
def exportElementAs (libsLoaded : Bool) (element : Option (Except Unit Canvas))
    (format : String) (filenameBase : String) : ExportOutcome :=
  if !libsLoaded then
    { statuses := [("Export libraries not loaded.", "error")],
      downloads := [], renderCalls := 0, saved := none, threw := false }
  else
    match element with
    | none =>
      { statuses := [("Timetable element not found.", "error")],
        downloads := [], renderCalls := 0, saved := none, threw := false }
    | some (Except.error _) =>
      { statuses := [("Error during export (check console).", "error")],
        downloads := [], renderCalls := 1, saved := none, threw := false }
    | some (Except.ok cv) =>
      let safeName := safeNameOf filenameBase
      if format == "png" then
        { statuses := [("Downloaded " ++ safeName ++ ".png", "success")],
          downloads := [safeName ++ ".png"], renderCalls := 1,
          saved := none, threw := false }
      else if format == "pdf" then
        let pl := computePlacement a4LandscapeWidth a4LandscapeHeight cv.width cv.height
        { statuses := [("Downloaded " ++ safeName ++ ".pdf", "success")],
          downloads := [safeName ++ ".pdf"], renderCalls := 1,
          saved := some (drawImage newPdf cv pl), threw := false }
      else
        { statuses := [], downloads := [], renderCalls := 1,
          saved := none, threw := false }

/-- Single-card export helper `exportElement` of teachers.js (lines 36-95):
same control flow as app.js `exportElementAs`, with its own messages. -/
def exportElement (libsLoaded : Bool) (element : Option (Except Unit Canvas))
    (format : String) (filenameBase : String) : ExportOutcome :=
  if !libsLoaded then
    { statuses := [("Export libraries not loaded (check CDN / internet).", "error")],
      downloads := [], renderCalls := 0, saved := none, threw := false }
  else
    match element with
    | none =>
      { statuses := [("Nothing to export (element not found).", "error")],
        downloads := [], renderCalls := 0, saved := none, threw := false }
    | some (Except.error _) =>
      { statuses := [("Error while exporting (see console).", "error")],
        downloads := [], renderCalls := 1, saved := none, threw := false }
    | some (Except.ok cv) =>
      let safeName := safeNameOf filenameBase
      if format == "png" then
        { statuses := [("Downloaded " ++ safeName ++ ".png", "success")],
          downloads := [safeName ++ ".png"], renderCalls := 1,
          saved := none, threw := false }
      else if format == "pdf" then
        let pl := computePlacement a4LandscapeWidth a4LandscapeHeight cv.width cv.height
        { statuses := [("Downloaded " ++ safeName ++ ".pdf", "success")],
          downloads := [safeName ++ ".pdf"], renderCalls := 1,
          saved := some (drawImage newPdf cv pl), threw := false }
      else
        { statuses := [], downloads := [], renderCalls := 1,
          saved := none, threw := false }

/-- Normalized query `teacherSearchInput.value.trim().toLowerCase()` of the
teachers search input handler (app.js line 258). -/
def filterQuery (raw : String) : List Char := jsToLower (jsTrim raw.data)

/-- Visibility decision of the search input handler for one card (app.js
lines 261-268): `!query || haystack.includes(query)` with the haystack
lowercased. -/
def cardVisible (rawQuery haystack : String) : Bool :=
  let q := filterQuery rawQuery
  q.isEmpty || containsSub (jsToLower haystack.data) q

/-- Filter pass over the whole card list, pairing each haystack with the
visibility the handler assigns to its card. -/
def teacherSearchFilter (rawQuery : String) (haystacks : List String) :
    List (String × Bool) :=
  haystacks.map fun hay => (hay, cardVisible rawQuery hay)

/-- Visibility predicate in the words of the specification (which mentions no
trimming): the lowercased haystack contains the lowercased query as a
substring. -/
def specVisible (rawQuery haystack : String) : Bool :=
  containsSub (jsToLower haystack.data) (jsToLower rawQuery.data)

/-! Helper lemmas. -/

/-- Every character the whitespace squasher emits is a non-whitespace
character: either an underscore or a character copied from the input. -/
theorem squashWs_not_ws {c : Char} :
    ∀ (l : List Char) (b : Bool), c ∈ squashWs l b → c.isWhitespace = false := by
  intro l
  induction l with
  | nil => intro b h; simp [squashWs] at h
  | cons d ds ih =>
    intro b h
    cases hd : d.isWhitespace with
    | true =>
      cases b with
      | true =>
        rw [squashWs, if_pos hd, if_pos rfl] at h
        exact ih true h
      | false =>
        rw [squashWs, if_pos hd] at h
        simp at h
        rcases h with h | h
        · subst h; decide
        · exact ih true h
    | false =>
      rw [squashWs, if_neg (by simp [hd])] at h
      rcases List.mem_cons.mp h with h | h
      · subst h; exact hd
      · exact ih false h

/-- The whitespace squasher is the identity on whitespace-free input. -/
theorem squashWs_id :
    ∀ (l : List Char) (b : Bool), (∀ c ∈ l, c.isWhitespace = false) →
      squashWs l b = l := by
  intro l
  induction l with
  | nil => intro b _; rfl
  | cons d ds ih =>
    intro b hl
    have hd : d.isWhitespace = false := hl d (List.mem_cons_self d ds)
    rw [squashWs, if_neg (by simp [hd])]
    rw [ih false fun c hc => hl c (List.mem_cons_of_mem _ hc)]

/-- Substring test agrees with the infix relation. -/
theorem containsSub_iff (needle : List Char) :
    ∀ hay : List Char, containsSub hay needle = true ↔ needle <:+: hay := by
  intro hay
  induction hay with
  | nil =>
    simp [containsSub, List.isPrefixOf_iff_prefix]
  | cons c cs ih =>
    simp [containsSub, List.isPrefixOf_iff_prefix, ih, List.infix_cons_iff]

/-- Handler visibility is exactly infix containment of the normalized query
in the lowercased haystack (the empty normalized query is always an infix). -/
theorem cardVisible_eq_infix (q hay : String) :
    cardVisible q hay = true ↔ filterQuery q <:+: jsToLower hay.data := by
  unfold cardVisible
  simp only [Bool.or_eq_true, List.isEmpty_iff, containsSub_iff]
  constructor
  · rintro (h | h)
    · rw [h]; exact List.nil_infix
    · exact h
  · intro h; exact Or.inr h

/-- Updating the last element of a list with an explicit final element. -/
theorem updateLast_append (f : Page → Page) (l : List Page) (p : Page) :
    updateLast f (l ++ [p]) = l ++ [f p] := by
  induction l with
  | nil => rfl
  | cons a l ih =>
    cases l with
    | nil => rfl
    | cons b l2 =>
      show a :: updateLast f ((b :: l2) ++ [p]) = a :: ((b :: l2) ++ [f p])
      rw [ih]

/-- Appending a page and drawing an image and a caption on it extends the
page list by one fully drawn page. -/
theorem emit_pages (doc : PdfDoc) (cv : Canvas) (pl : Placement) (nm : String) :
    (drawText (drawImage (addPage doc) cv pl) nm).pages =
      doc.pages ++ [{ image := some (cv, pl), caption := some nm }] := by
  show updateLast _ (updateLast _ (doc.pages ++ [blankPage])) = _
  rw [updateLast_append, updateLast_append]

/-- After the first page has been emitted, the batch loop appends exactly the
expected pages to the document, provided every rasterization succeeds. -/
theorem batchLoop_notFirst (pw ph : ℚ) (fb : String) :
    ∀ (cards : List Card) (doc : PdfDoc), cards.all renderOk = true →
      batchLoop pw ph fb cards doc false =
        Except.ok { pages := doc.pages ++ expectedPages pw ph fb cards } := by
  intro cards
  induction cards with
  | nil => intro doc _; simp [batchLoop, expectedPages]
  | cons c rest ih =>
    intro doc hall
    have hok : renderOk c = true ∧ rest.all renderOk = true := by
      simpa [List.all_cons] using hall
    cases hw : c.wrapper with
    | none =>
      rw [batchLoop]
      simp only [hw]
      rw [ih doc hok.2]
      simp [expectedPages, List.filterMap_cons, hw]
    | some r =>
      cases r with
      | error e =>
        exfalso
        have := hok.1
        rw [renderOk, hw] at this
        simp at this
      | ok cv =>
        rw [batchLoop]
        simp only [hw]
        rw [ih _ hok.2]
        have hif : (if false = true then doc else addPage doc) = addPage doc := by simp
        rw [hif, emit_pages]
        simp only [expectedPages, List.filterMap_cons, hw]
        simp [List.append_assoc]

/-- Starting from a fresh document, the batch loop produces exactly the
expected pages, or keeps the blank initial page when no card is emitted. -/
theorem batchLoop_first (pw ph : ℚ) (fb : String) :
    ∀ cards : List Card, cards.all renderOk = true →
      batchLoop pw ph fb cards newPdf true =
        Except.ok { pages := if expectedPages pw ph fb cards = []
                             then [blankPage] else expectedPages pw ph fb cards } := by
  intro cards
  induction cards with
  | nil => intro _; simp [batchLoop, expectedPages, newPdf]
  | cons c rest ih =>
    intro hall
    have hok : renderOk c = true ∧ rest.all renderOk = true := by
      simpa [List.all_cons] using hall
    cases hw : c.wrapper with
    | none =>
      rw [batchLoop]
      simp only [hw]
      rw [ih hok.2]
      simp [expectedPages, List.filterMap_cons, hw]
    | some r =>
      cases r with
      | error e =>
        exfalso
        have := hok.1
        rw [renderOk, hw] at this
        simp at this
      | ok cv =>
        rw [batchLoop]
        simp only [hw, if_pos rfl]
        rw [batchLoop_notFirst pw ph fb rest _ hok.2]
        simp only [drawImage, drawText, newPdf, updateLast, blankPage,
          expectedPages, List.filterMap_cons, hw]
        simp

/-- A card whose rasterization throws makes the whole batch loop abort. -/
theorem batchLoop_err (pw ph : ℚ) (fb : String) :
    ∀ (cards : List Card) (doc : PdfDoc) (first : Bool),
      (∃ c ∈ cards, c.wrapper = some (Except.error ())) →
      batchLoop pw ph fb cards doc first = Except.error () := by
  intro cards
  induction cards with
  | nil =>
    intro doc first h
    rcases h with ⟨c, hc, _⟩
    simp at hc
  | cons c rest ih =>
    intro doc first h
    cases hw : c.wrapper with
    | none =>
      rw [batchLoop]
      simp only [hw]
      apply ih
      rcases h with ⟨c', hc', he⟩
      rcases List.mem_cons.mp hc' with rfl | hmem
      · rw [hw] at he; cases he
      · exact ⟨c', hmem, he⟩
    | some r =>
      cases r with
      | error e => cases e; rw [batchLoop]; simp only [hw]
      | ok cv =>
        rw [batchLoop]
        simp only [hw]
        apply ih
        rcases h with ⟨c', hc', he⟩
        rcases List.mem_cons.mp hc' with rfl | hmem
        · rw [hw] at he; simp at he
        · exact ⟨c', hmem, he⟩

/-- In a batch where every rasterization succeeds, the number of expected
pages equals the number of cards with a resolvable capture region. -/
theorem expectedPages_len (pw ph : ℚ) (fb : String) :
    ∀ cards : List Card, cards.all renderOk = true →
      (expectedPages pw ph fb cards).length = (cards.filter hasRegion).length := by
  intro cards
  induction cards with
  | nil => intro _; rfl
  | cons c rest ih =>
    intro hall
    have hok : renderOk c = true ∧ rest.all renderOk = true := by
      simpa [List.all_cons] using hall
    have hrest := ih hok.2
    cases hw : c.wrapper with
    | none =>
      simp only [expectedPages, List.filterMap_cons, hw, List.filter_cons,
        hasRegion, Option.isSome_none, Bool.false_eq_true, if_false]
      simp only [expectedPages, hasRegion] at hrest
      exact hrest
    | some r =>
      cases r with
      | error e =>
        exfalso
        have := hok.1
        rw [renderOk, hw] at this
        simp at this
      | ok cv =>
        simp only [expectedPages, List.filterMap_cons, hw, List.filter_cons,
          hasRegion, Option.isSome_some, if_true, List.length_cons]
        simp only [expectedPages, hasRegion] at hrest
        omega

/-! Claim theorems. -/

/-- C1: for every page size (W, H) with W, H > 0 and every snapshot size
(w, h) with w, h > 0, the placement computed by the export routines has
ratio = min(W/w, H/h), placed size (w·ratio, h·ratio), x = (W - w·ratio)/2
and y = (H - h·ratio)/2, with 0 ≤ x, x + w·ratio ≤ W, 0 ≤ y and
y + h·ratio ≤ H: the placed image never exceeds either page dimension and is
centered on both axes. -/
theorem placement_fits_and_centered (W H w h : ℚ)
    (hW : 0 < W) (hH : 0 < H) (hw : 0 < w) (hh : 0 < h) :
    (computePlacement W H w h).ratio = min (W / w) (H / h) ∧
    (computePlacement W H w h).imgWidth = w * (computePlacement W H w h).ratio ∧
    (computePlacement W H w h).imgHeight = h * (computePlacement W H w h).ratio ∧
    (computePlacement W H w h).x = (W - w * (computePlacement W H w h).ratio) / 2 ∧
    (computePlacement W H w h).y = (H - h * (computePlacement W H w h).ratio) / 2 ∧
    0 ≤ (computePlacement W H w h).x ∧
    (computePlacement W H w h).x + w * (computePlacement W H w h).ratio ≤ W ∧
    0 ≤ (computePlacement W H w h).y ∧
    (computePlacement W H w h).y + h * (computePlacement W H w h).ratio ≤ H := by
  have hwr : w * min (W / w) (H / h) ≤ W := by
    calc w * min (W / w) (H / h) = min (W / w) (H / h) * w := mul_comm _ _
    _ ≤ (W / w) * w :=
        mul_le_mul_of_nonneg_right (min_le_left _ _) (le_of_lt hw)
    _ = W := div_mul_cancel₀ W (ne_of_gt hw)
  have hhr : h * min (W / w) (H / h) ≤ H := by
    calc h * min (W / w) (H / h) = min (W / w) (H / h) * h := mul_comm _ _
    _ ≤ (H / h) * h :=
        mul_le_mul_of_nonneg_right (min_le_right _ _) (le_of_lt hh)
    _ = H := div_mul_cancel₀ H (ne_of_gt hh)
  refine ⟨rfl, rfl, rfl, rfl, rfl, ?_, ?_, ?_, ?_⟩
  · show (0 : ℚ) ≤ (W - w * min (W / w) (H / h)) / 2
    linarith
  · show (W - w * min (W / w) (H / h)) / 2 + w * min (W / w) (H / h) ≤ W
    linarith
  · show (0 : ℚ) ≤ (H - h * min (W / w) (H / h)) / 2
    linarith
  · show (H - h * min (W / w) (H / h)) / 2 + h * min (W / w) (H / h) ≤ H
    linarith

/-- C1 witness: the placement theorem instantiated at page 842 × 595 and
snapshot 100 × 50. -/
theorem placement_fits_and_centered_witness :
    (0 : ℚ) < 842 ∧ (0 : ℚ) < 595 ∧ (0 : ℚ) < 100 ∧ (0 : ℚ) < 50 ∧
    ((computePlacement 842 595 100 50).ratio = min (842 / 100) (595 / 50) ∧
     (computePlacement 842 595 100 50).imgWidth =
       100 * (computePlacement 842 595 100 50).ratio ∧
     (computePlacement 842 595 100 50).imgHeight =
       50 * (computePlacement 842 595 100 50).ratio ∧
     (computePlacement 842 595 100 50).x =
       (842 - 100 * (computePlacement 842 595 100 50).ratio) / 2 ∧
     (computePlacement 842 595 100 50).y =
       (595 - 50 * (computePlacement 842 595 100 50).ratio) / 2 ∧
     0 ≤ (computePlacement 842 595 100 50).x ∧
     (computePlacement 842 595 100 50).x +
       100 * (computePlacement 842 595 100 50).ratio ≤ 842 ∧
     0 ≤ (computePlacement 842 595 100 50).y ∧
     (computePlacement 842 595 100 50).y +
       50 * (computePlacement 842 595 100 50).ratio ≤ 595) :=
  ⟨by norm_num, by norm_num, by norm_num, by norm_num,
   placement_fits_and_centered 842 595 100 50
     (by norm_num) (by norm_num) (by norm_num) (by norm_num)⟩

/-- C2 counterexample: a one-card collection whose capture region does not
resolve still saves a document with one (blank) page — the document library's
initial page — so the saved page count (1) differs from the number of cards
with a resolvable capture region (0), contrary to the claim. -/
theorem batch_blank_page_cex :
    (exportAllClassesPdf true [{ name := some "X", wrapper := none }]).saved =
      some { pages := [blankPage] } ∧
    (([{ name := some "X", wrapper := none }] : List Card).filter hasRegion).length
      = 0 := by
  exact ⟨rfl, rfl⟩

/-- C2 amended: in a batch in which every resolvable capture region
rasterizes successfully, the saved document consists of exactly the expected
pages — one page per card with a resolvable region, in input collection
order, each captioned with that card's display name or the fallback — except
that a nonempty collection in which no region resolves saves the single
blank initial page; the saved page count is therefore
max 1 (number of resolvable cards). -/
theorem batch_pages_in_order (cards : List Card)
    (hne : cards ≠ []) (hok : cards.all renderOk = true) :
    ∃ doc, (exportAllClassesPdf true cards).saved = some doc ∧
      doc.pages = (if expectedPages a4LandscapeWidth a4LandscapeHeight "class" cards = []
                   then [blankPage]
                   else expectedPages a4LandscapeWidth a4LandscapeHeight "class" cards) ∧
      doc.pages.length = max 1 (cards.filter hasRegion).length := by
  rcases cards with _ | ⟨c, rest⟩
  · exact absurd rfl hne
  have hbl := batchLoop_first a4LandscapeWidth a4LandscapeHeight "class" (c :: rest) hok
  have hout : exportAllClassesPdf true (c :: rest) =
      { statuses := [("Preparing all class timetables as PDF…", "success"),
                     ("Downloaded timetable-all-classes.pdf", "success")],
        saved := some { pages :=
          if expectedPages a4LandscapeWidth a4LandscapeHeight "class" (c :: rest) = []
          then [blankPage]
          else expectedPages a4LandscapeWidth a4LandscapeHeight "class" (c :: rest) },
        savedName := some "timetable-all-classes.pdf", threw := false } := by
    unfold exportAllClassesPdf
    rw [hbl]
    rfl
  refine ⟨{ pages :=
      if expectedPages a4LandscapeWidth a4LandscapeHeight "class" (c :: rest) = []
      then [blankPage]
      else expectedPages a4LandscapeWidth a4LandscapeHeight "class" (c :: rest) },
    by rw [hout], rfl, ?_⟩
  have hlen := expectedPages_len a4LandscapeWidth a4LandscapeHeight "class" (c :: rest) hok
  by_cases hE : expectedPages a4LandscapeWidth a4LandscapeHeight "class" (c :: rest) = []
  · rw [hE] at hlen
    simp only [List.length_nil] at hlen
    show (if expectedPages a4LandscapeWidth a4LandscapeHeight "class" (c :: rest) = []
          then [blankPage]
          else expectedPages a4LandscapeWidth a4LandscapeHeight "class" (c :: rest)).length =
      max 1 (List.filter hasRegion (c :: rest)).length
    rw [if_pos hE]
    simp only [List.length_singleton]
    omega
  · show (if expectedPages a4LandscapeWidth a4LandscapeHeight "class" (c :: rest) = []
          then [blankPage]
          else expectedPages a4LandscapeWidth a4LandscapeHeight "class" (c :: rest)).length =
      max 1 (List.filter hasRegion (c :: rest)).length
    rw [if_neg hE]
    have hpos : (expectedPages a4LandscapeWidth a4LandscapeHeight "class" (c :: rest)).length ≠ 0 := by
      intro h0
      exact hE (List.length_eq_zero.mp h0)
    omega

/-- C2 witness: the amended theorem instantiated at a two-card collection
whose first card resolves and rasterizes to a 100 × 50 canvas and whose
second card has no resolvable region. -/
theorem batch_pages_in_order_witness :
    ([{ name := some "Class A", wrapper := some (Except.ok ⟨100, 50⟩) },
      { name := none, wrapper := none }] : List Card) ≠ [] ∧
    ([{ name := some "Class A", wrapper := some (Except.ok ⟨100, 50⟩) },
      { name := none, wrapper := none }] : List Card).all renderOk = true ∧
    (∃ doc, (exportAllClassesPdf true
        [{ name := some "Class A", wrapper := some (Except.ok ⟨100, 50⟩) },
         { name := none, wrapper := none }]).saved = some doc ∧
      doc.pages = (if expectedPages a4LandscapeWidth a4LandscapeHeight "class"
                      [{ name := some "Class A", wrapper := some (Except.ok ⟨100, 50⟩) },
                       { name := none, wrapper := none }] = []
                   then [blankPage]
                   else expectedPages a4LandscapeWidth a4LandscapeHeight "class"
                      [{ name := some "Class A", wrapper := some (Except.ok ⟨100, 50⟩) },
                       { name := none, wrapper := none }]) ∧
      doc.pages.length = max 1 (([{ name := some "Class A", wrapper := some (Except.ok ⟨100, 50⟩) },
         { name := none, wrapper := none }] : List Card).filter hasRegion).length) :=
  ⟨List.cons_ne_nil _ _, rfl,
   batch_pages_in_order _ (List.cons_ne_nil _ _) rfl⟩

/-- C3: if some card's rasterization throws, both batch export routines abort
with no document saved and no filename: the pages built for earlier cards are
discarded and no partial document is written. -/
theorem batch_abort_on_error (cards : List Card)
    (hbad : ∃ c ∈ cards, c.wrapper = some (Except.error ())) :
    (exportAllClassesPdf true cards).saved = none ∧
    (exportAllClassesPdf true cards).savedName = none ∧
    (btnAllTeachersHandler cards).saved = none ∧
    (btnAllTeachersHandler cards).savedName = none := by
  have hne : cards.isEmpty = false := by
    rcases hbad with ⟨c, hc, _⟩
    cases cards with
    | nil => simp at hc
    | cons a l => rfl
  have h1 := batchLoop_err a4LandscapeWidth a4LandscapeHeight "class" cards newPdf true hbad
  have h2 := batchLoop_err a4LandscapeWidth a4LandscapeHeight "teacher" cards newPdf true hbad
  refine ⟨?_, ?_, ?_, ?_⟩ <;>
    simp [exportAllClassesPdf, btnAllTeachersHandler, hne, h1, h2]

/-- C3 witness: the abort theorem instantiated at a three-card batch whose
middle card's rasterization throws. -/
theorem batch_abort_on_error_witness :
    (∃ c ∈ ([{ name := some "A", wrapper := some (Except.ok ⟨100, 50⟩) },
             { name := some "B", wrapper := some (Except.error ()) },
             { name := some "C", wrapper := some (Except.ok ⟨80, 40⟩) }] : List Card),
       c.wrapper = some (Except.error ())) ∧
    ((exportAllClassesPdf true
        [{ name := some "A", wrapper := some (Except.ok ⟨100, 50⟩) },
         { name := some "B", wrapper := some (Except.error ()) },
         { name := some "C", wrapper := some (Except.ok ⟨80, 40⟩) }]).saved = none ∧
     (exportAllClassesPdf true
        [{ name := some "A", wrapper := some (Except.ok ⟨100, 50⟩) },
         { name := some "B", wrapper := some (Except.error ()) },
         { name := some "C", wrapper := some (Except.ok ⟨80, 40⟩) }]).savedName = none ∧
     (btnAllTeachersHandler
        [{ name := some "A", wrapper := some (Except.ok ⟨100, 50⟩) },
         { name := some "B", wrapper := some (Except.error ()) },
         { name := some "C", wrapper := some (Except.ok ⟨80, 40⟩) }]).saved = none ∧
     (btnAllTeachersHandler
        [{ name := some "A", wrapper := some (Except.ok ⟨100, 50⟩) },
         { name := some "B", wrapper := some (Except.error ()) },
         { name := some "C", wrapper := some (Except.ok ⟨80, 40⟩) }]).savedName = none) :=
  ⟨⟨_, List.mem_cons_of_mem _ (List.mem_cons_self _ _), rfl⟩,
   batch_abort_on_error _ ⟨_, List.mem_cons_of_mem _ (List.mem_cons_self _ _), rfl⟩⟩

/-- C4 counterexample: a batch whose only card's rasterization throws lets
the exception escape the batch export call and shows only the preparation
toast — no generic error status is reported, contrary to the claim that
every export call catches exceptions at its outermost scope. -/
theorem batch_uncaught_exception_cex :
    (exportAllClassesPdf true
        [{ name := some "A", wrapper := some (Except.error ()) }]).threw = true ∧
    (exportAllClassesPdf true
        [{ name := some "A", wrapper := some (Except.error ()) }]).statuses =
      [("Preparing all class timetables as PDF…", "success")] := by
  exact ⟨rfl, rfl⟩

/-- C4 amended: the single-card exports in both files catch every capture
failure at their outermost scope, report a generic error status and let no
exception escape; the batch exports have no such handler — a rasterization
failure escapes the batch call, only success toasts are shown (no error
status), and no file is produced. -/
theorem export_error_handling (libs : Bool) (el : Option (Except Unit Canvas))
    (fmt base : String) (cards : List Card)
    (hbad : ∃ c ∈ cards, c.wrapper = some (Except.error ())) :
    (exportElementAs libs el fmt base).threw = false ∧
    (exportElement libs el fmt base).threw = false ∧
    exportElementAs true (some (Except.error ())) fmt base =
      { statuses := [("Error during export (check console).", "error")],
        downloads := [], renderCalls := 1, saved := none, threw := false } ∧
    exportElement true (some (Except.error ())) fmt base =
      { statuses := [("Error while exporting (see console).", "error")],
        downloads := [], renderCalls := 1, saved := none, threw := false } ∧
    (exportAllClassesPdf true cards).threw = true ∧
    (exportAllClassesPdf true cards).saved = none ∧
    (∀ s ∈ (exportAllClassesPdf true cards).statuses, s.2 = "success") ∧
    (btnAllTeachersHandler cards).threw = true ∧
    (btnAllTeachersHandler cards).saved = none := by
  have hne : cards.isEmpty = false := by
    rcases hbad with ⟨c, hc, _⟩
    cases cards with
    | nil => simp at hc
    | cons a l => rfl
  have h1 := batchLoop_err a4LandscapeWidth a4LandscapeHeight "class" cards newPdf true hbad
  have h2 := batchLoop_err a4LandscapeWidth a4LandscapeHeight "teacher" cards newPdf true hbad
  have hA : ∀ (libs2 : Bool) (el2 : Option (Except Unit Canvas)) (f2 b2 : String),
      (exportElementAs libs2 el2 f2 b2).threw = false := by
    intro libs2 el2 f2 b2
    cases libs2 with
    | false => rfl
    | true =>
      rcases el2 with _ | (_ | cv)
      · rfl
      · rfl
      · by_cases hp : (f2 == "png") = true
        · simp [exportElementAs, hp]
        · by_cases hd : (f2 == "pdf") = true
          · simp [exportElementAs, hp, hd]
          · simp [exportElementAs, hp, hd]
  have hB : ∀ (libs2 : Bool) (el2 : Option (Except Unit Canvas)) (f2 b2 : String),
      (exportElement libs2 el2 f2 b2).threw = false := by
    intro libs2 el2 f2 b2
    cases libs2 with
    | false => rfl
    | true =>
      rcases el2 with _ | (_ | cv)
      · rfl
      · rfl
      · by_cases hp : (f2 == "png") = true
        · simp [exportElement, hp]
        · by_cases hd : (f2 == "pdf") = true
          · simp [exportElement, hp, hd]
          · simp [exportElement, hp, hd]
  refine ⟨hA libs el fmt base, hB libs el fmt base, rfl, rfl, ?_, ?_, ?_, ?_, ?_⟩
  · simp [exportAllClassesPdf, hne, h1]
  · simp [exportAllClassesPdf, hne, h1]
  · simp [exportAllClassesPdf, hne, h1]
  · simp [btnAllTeachersHandler, hne, h2]
  · simp [btnAllTeachersHandler, hne, h2]

/-- C4 witness: the amended theorem instantiated at a concrete single-card
input and a one-card batch whose rasterization throws. -/
theorem export_error_handling_witness :
    (∃ c ∈ ([{ name := some "A", wrapper := some (Except.error ()) }] : List Card),
       c.wrapper = some (Except.error ())) ∧
    ((exportElementAs true none "pdf" "x").threw = false ∧
     (exportElement true none "pdf" "x").threw = false ∧
     exportElementAs true (some (Except.error ())) "pdf" "x" =
       { statuses := [("Error during export (check console).", "error")],
         downloads := [], renderCalls := 1, saved := none, threw := false } ∧
     exportElement true (some (Except.error ())) "pdf" "x" =
       { statuses := [("Error while exporting (see console).", "error")],
         downloads := [], renderCalls := 1, saved := none, threw := false } ∧
     (exportAllClassesPdf true
        [{ name := some "A", wrapper := some (Except.error ()) }]).threw = true ∧
     (exportAllClassesPdf true
        [{ name := some "A", wrapper := some (Except.error ()) }]).saved = none ∧
     (∀ s ∈ (exportAllClassesPdf true
        [{ name := some "A", wrapper := some (Except.error ()) }]).statuses,
        s.2 = "success") ∧
     (btnAllTeachersHandler
        [{ name := some "A", wrapper := some (Except.error ()) }]).threw = true ∧
     (btnAllTeachersHandler
        [{ name := some "A", wrapper := some (Except.error ()) }]).saved = none) :=
  ⟨⟨_, List.mem_cons_self _ _, rfl⟩,
   export_error_handling true none "pdf" "x" _ ⟨_, List.mem_cons_self _ _, rfl⟩⟩

/-- C5: a batch export invoked on an empty card collection saves no document
and no filename under either file's batch routine, and reports exactly one
error status — it never saves an empty document. -/
theorem batch_empty_reports_error (libs : Bool) :
    (exportAllClassesPdf libs []).saved = none ∧
    (exportAllClassesPdf libs []).savedName = none ∧
    (∃ m, (exportAllClassesPdf libs []).statuses = [(m, "error")]) ∧
    btnAllTeachersHandler [] =
      { statuses := [("No teachers to export.", "error")],
        saved := none, savedName := none, threw := false } := by
  cases libs with
  | false => exact ⟨rfl, rfl, ⟨"Export libraries not loaded.", rfl⟩, rfl⟩
  | true => exact ⟨rfl, rfl, ⟨"No class timetables to export.", rfl⟩, rfl⟩

/-- C6 counterexample: with the libraries absent, clicking the teachers.js
batch export button runs no handler at all — zero downloads, but also no
error status, contrary to the claim that every export action reports an
error status. -/
theorem btnAll_absent_libs_cex :
    btnAllTeachersClick false
        [{ name := some "A", wrapper := some (Except.ok ⟨100, 50⟩) }] =
      { statuses := [], saved := none, savedName := none, threw := false } := by
  exact rfl

/-- C6 amended: with a capability absent, every export action downloads zero
files; the single-card exports in both files and the app.js batch export
report an error status, but clicking the teachers.js batch button — whose
listener is only registered when both capabilities are present — reports
nothing and does nothing. -/
theorem export_absent_libs (el : Option (Except Unit Canvas))
    (fmt base : String) (cards : List Card) :
    exportElementAs false el fmt base =
      { statuses := [("Export libraries not loaded.", "error")],
        downloads := [], renderCalls := 0, saved := none, threw := false } ∧
    exportElement false el fmt base =
      { statuses := [("Export libraries not loaded (check CDN / internet).", "error")],
        downloads := [], renderCalls := 0, saved := none, threw := false } ∧
    exportAllClassesPdf false cards =
      { statuses := [("Export libraries not loaded.", "error")],
        saved := none, savedName := none, threw := false } ∧
    btnAllTeachersClick false cards =
      { statuses := [], saved := none, savedName := none, threw := false } :=
  ⟨rfl, rfl, rfl, rfl⟩

/-- C7 counterexample: with query " z" (leading space) and haystack "z", the
handler shows the card because it trims the query before matching, although
the lowercased haystack does not contain the lowercased query " z" as a
substring — so visibility is not what the claim states. -/
theorem filter_trims_query_cex :
    cardVisible " z" "z" = true ∧ specVisible " z" "z" = false := by
  exact ⟨rfl, rfl⟩

/-- C7 amended: the live filter pairs every haystack with the handler's
visibility decision, and a card is visible exactly when the
trimmed-and-lowercased query is a contiguous substring of its lowercased
haystack; an empty query, in particular, leaves every card visible. -/
theorem filter_visible_iff (q hay : String) (haystacks : List String) :
    teacherSearchFilter q haystacks = haystacks.map (fun s => (s, cardVisible q s)) ∧
    (cardVisible q hay = true ↔ filterQuery q <:+: jsToLower hay.data) ∧
    cardVisible "" hay = true :=
  ⟨rfl, cardVisible_eq_infix q hay, rfl⟩

/-- C8: the derived filename is the stem with every whitespace run replaced
by one underscore, followed by ".png" or ".pdf"; the single-card exports
download exactly that name, the derivation is a pure function of the stem,
and the whitespace replacement is idempotent — re-deriving from an
already-sanitized stem changes nothing. -/
theorem filename_derivation_idempotent (stem ext : String) (cv : Canvas) :
    derivedFilename stem ext = safeNameOf stem ++ "." ++ ext ∧
    safeNameOf (safeNameOf stem) = safeNameOf stem ∧
    derivedFilename (safeNameOf stem) ext = derivedFilename stem ext ∧
    (exportElementAs true (some (Except.ok cv)) "png" stem).downloads =
      [derivedFilename stem "png"] ∧
    (exportElement true (some (Except.ok cv)) "pdf" stem).downloads =
      [derivedFilename stem "pdf"] := by
  have hid : safeNameOf (safeNameOf stem) = safeNameOf stem := by
    show String.mk (squashWs (String.mk (squashWs stem.data false)).data false) = _
    have hd : (String.mk (squashWs stem.data false)).data = squashWs stem.data false := rfl
    rw [hd, squashWs_id (squashWs stem.data false) false
      (fun c hc => squashWs_not_ws (stem.data) false hc)]
    rfl
  refine ⟨rfl, hid, ?_, ?_, ?_⟩
  · show safeNameOf (safeNameOf stem) ++ "." ++ ext = safeNameOf stem ++ "." ++ ext
    rw [hid]
  · show [safeNameOf stem ++ ".png"] = [derivedFilename stem "png"]
    rw [derivedFilename, String.append_assoc]
    rfl
  · show [safeNameOf stem ++ ".pdf"] = [derivedFilename stem "pdf"]
    rw [derivedFilename, String.append_assoc]
    rfl

/-- C9 counterexample: in teachers.js, with no status element available the
helper logs nothing at all (and displays nothing), so the message is not
"only logged" as the claim states for both files. -/
theorem showStatus_teachers_no_log_cex :
    showStatusTeachers false "Export failed" "error" =
      { displayed := none, logged := [], threw := false } := by
  exact rfl

/-- C9 amended: with no status element available, the app.js helper only
logs the uppercased kind with the message and returns without throwing,
while the teachers.js helper returns immediately without logging or
displaying anything and without throwing. -/
theorem showStatus_no_surface (message kind : String) :
    showStatusApp false message kind =
      { displayed := none,
        logged := [(String.mk (jsToUpper kind.data), message)], threw := false } ∧
    showStatusTeachers false message kind =
      { displayed := none, logged := [], threw := false } :=
  ⟨rfl, rfl⟩

/-- C10: with libraries present, a resolvable element and a successful
rasterization, a format selector other than "png" or "pdf" still rasterizes
the element once but produces no download, no status toast and no document,
and the call completes without an escaping exception — in both files'
single-card export helpers. -/
theorem export_unknown_format_noop (fmt base : String) (cv : Canvas)
    (h1 : fmt ≠ "png") (h2 : fmt ≠ "pdf") :
    exportElementAs true (some (Except.ok cv)) fmt base =
      { statuses := [], downloads := [], renderCalls := 1,
        saved := none, threw := false } ∧
    exportElement true (some (Except.ok cv)) fmt base =
      { statuses := [], downloads := [], renderCalls := 1,
        saved := none, threw := false } := by
  have e1 : (fmt == "png") = false := by rw [beq_eq_false_iff_ne]; exact h1
  have e2 : (fmt == "pdf") = false := by rw [beq_eq_false_iff_ne]; exact h2
  constructor <;> simp [exportElementAs, exportElement, e1, e2]

/-- C10 witness: the theorem instantiated at format "jpg", stem "Room A" and
a 100 × 50 canvas. -/
theorem export_unknown_format_noop_witness :
    ("jpg" : String) ≠ "png" ∧ ("jpg" : String) ≠ "pdf" ∧
    (exportElementAs true (some (Except.ok ⟨100, 50⟩)) "jpg" "Room A" =
      { statuses := [], downloads := [], renderCalls := 1,
        saved := none, threw := false } ∧
     exportElement true (some (Except.ok ⟨100, 50⟩)) "jpg" "Room A" =
      { statuses := [], downloads := [], renderCalls := 1,
        saved := none, threw := false }) :=
  ⟨by decide, by decide,
   export_unknown_format_noop "jpg" "Room A" ⟨100, 50⟩ (by decide) (by decide)⟩
